import Mathlib

/-!
Shallow embedding of the query-resolution core of the scb-mcp server
(src/scripts/update-api-types.ts) and proofs about it.

Strings are modelled as lists of Unicode characters (`Str := List Char`),
matching JavaScript's per-character string operations on the character
repertoire this code manipulates (ASCII plus the Swedish letters
å ä ö é ü and their upper-case forms).

Note on the source text: the TypeScript file is stored double-encoded
(UTF-8 read as Mac-Roman and re-saved as UTF-8), so the five regexes in
`normalizeSwedish` appear as the byte sequences for "√•", "√§", "√∂",
"√©", "√º"; decoded back, they are the single characters å, ä, ö, é, ü,
which is how they are embedded here (this also agrees with the
function's own name and comment, "normalize Swedish characters").
-/

/-- Strings as character lists. -/
abbrev Str := List Char

/-- Turns a Lean string literal into the character-list model. -/
def str (s : String) : Str := s.data

/-- Models JavaScript `String.prototype.toLowerCase` on one character,
restricted to the repertoire relevant to this code: ASCII letters and the
upper-case Swedish letters Å Ä Ö É Ü. -/
def jsToLower (c : Char) : Char :=
  if 'A' ≤ c ∧ c ≤ 'Z' then Char.ofNat (c.toNat + 32)
  else if c = 'Å' then 'å'
  else if c = 'Ä' then 'ä'
  else if c = 'Ö' then 'ö'
  else if c = 'É' then 'é'
  else if c = 'Ü' then 'ü'
  else c

/-- Models `s.toLowerCase()`. -/
def toLowerStr (s : Str) : Str := s.map jsToLower

/-- Models `s.replace(/x/g, r)` for a single-character pattern `x` and
single-character replacement `r`. -/
def replaceAll (x r : Char) (s : Str) : Str :=
  s.map (fun c => if c = x then r else c)

/-- Whitespace recognised by `String.prototype.trim`, restricted to the
ASCII white-space characters. -/
def jsIsSpace (c : Char) : Bool :=
  c = ' ' ∨ c = '\t' ∨ c = '\n' ∨ c = '\r' ∨ c = Char.ofNat 11 ∨ c = Char.ofNat 12

/-- Models `s.trim()`: removes whitespace from both ends. -/
def trimStr (s : Str) : Str :=
  List.dropWhile jsIsSpace ((List.dropWhile jsIsSpace s.reverse).reverse)

/-- Models `big.includes(small)`: substring containment. -/
def jsIncludes : Str → Str → Bool
  | [], small => small.isPrefixOf ([] : Str)
  | c :: t, small => small.isPrefixOf (c :: t) || jsIncludes t small

/-- Replacement chain of `normalizeSwedish` before the final trim:
lowercase, then the five global replacements å→a, ä→a, ö→o, é→e, ü→u in
source order. -/
def chainCore (s : Str) : Str :=
  replaceAll 'ü' 'u' (replaceAll 'é' 'e' (replaceAll 'ö' 'o'
    (replaceAll 'ä' 'a' (replaceAll 'å' 'a' (toLowerStr s)))))

/-- Embeds `normalizeSwedish` (src/scripts/update-api-types.ts, lines
163-171): lowercase, then the five global replacements å→a, ä→a, ö→o,
é→e, ü→u in source order, then trim. -/
def normalizeSwedish (s : Str) : Str :=
  trimStr (chainCore s)

/-- Embeds `fuzzyMatchRegion` (src/scripts/update-api-types.ts, lines
174-195), keeping the source's early-return structure. -/
def fuzzyMatchRegion (query regionName regionCode : Str) : Bool :=
  let normalizedQuery := normalizeSwedish query
  let normalizedName := normalizeSwedish regionName
  let normalizedCode := toLowerStr regionCode
  if normalizedName = normalizedQuery || normalizedCode = normalizedQuery then
    true
  else if jsIncludes normalizedName normalizedQuery
       || jsIncludes normalizedQuery normalizedName then
    true
  else if jsIncludes normalizedCode normalizedQuery then
    true
  else
    false

/-- Strips one of the five diacritic letters named by the spec:
å and ä become a, ö becomes o, é becomes e, ü becomes u. -/
def stripDiacriticChar (c : Char) : Char :=
  if c = 'å' then 'a'
  else if c = 'ä' then 'a'
  else if c = 'ö' then 'o'
  else if c = 'é' then 'e'
  else if c = 'ü' then 'u'
  else c

/-- Strips the five diacritic letters named by the spec from a string.
Used to state the fuzzy-matching property, which quantifies over queries
built this way; it is not itself part of the source. -/
def stripDiacritics (s : Str) : Str :=
  s.map stripDiacriticChar

/-- Action of the replacement chain on one character. -/
def chainChar (c : Char) : Char :=
  (fun c => if c = 'ü' then 'u' else c)
    ((fun c => if c = 'é' then 'e' else c)
      ((fun c => if c = 'ö' then 'o' else c)
        ((fun c => if c = 'ä' then 'a' else c)
          ((fun c => if c = 'å' then 'a' else c) (jsToLower c)))))

theorem chainCore_cons (c : Char) (t : Str) :
    chainCore (c :: t) = chainChar c :: chainCore t := rfl

theorem chainChar_strip (c : Char) :
    chainChar (stripDiacriticChar c) = chainChar c := by
  by_cases h1 : c = 'å'
  · subst h1; decide
  · by_cases h2 : c = 'ä'
    · subst h2; decide
    · by_cases h3 : c = 'ö'
      · subst h3; decide
      · by_cases h4 : c = 'é'
        · subst h4; decide
        · by_cases h5 : c = 'ü'
          · subst h5; decide
          · have hs : stripDiacriticChar c = c := by
              unfold stripDiacriticChar
              rw [if_neg h1, if_neg h2, if_neg h3, if_neg h4, if_neg h5]
            rw [hs]

theorem chainCore_strip (s : Str) :
    chainCore (stripDiacritics s) = chainCore s := by
  induction s with
  | nil => rfl
  | cons c t ih =>
      have h1 : stripDiacritics (c :: t) = stripDiacriticChar c :: stripDiacritics t :=
        rfl
      rw [h1, chainCore_cons, chainCore_cons, chainChar_strip, ih]

theorem normalizeSwedish_strip (s : Str) :
    normalizeSwedish (stripDiacritics s) = normalizeSwedish s := by
  unfold normalizeSwedish
  rw [chainCore_strip]

theorem jsIncludes_iff (big small : Str) :
    jsIncludes big small = true ↔ small <:+: big := by
  induction big with
  | nil =>
      simp [jsIncludes, List.isPrefixOf_iff_prefix, List.infix_nil, List.prefix_nil]
  | cons c t ih =>
      simp [jsIncludes, List.isPrefixOf_iff_prefix, List.infix_cons_iff, ih]

/-- Result record of `validateLanguage` (src/scripts/update-api-types.ts,
lines 132-148): `{ valid, language, warning? }`. -/
structure LangValidation where
  valid : Bool
  language : Str
  warning : Option Str
  deriving DecidableEq, Repr

/-- Warning text produced by `validateLanguage` for an unsupported code
(apostrophes written as the escape \x27). -/
def languageWarningText (language : Str) : Str :=
  str "Unsupported language \x27" ++ language ++
    str "\x27. Only \x27sv\x27 (Swedish) and \x27en\x27 (English) are supported. Defaulting to \x27sv\x27."

/-- Embeds `validateLanguage` (src/scripts/update-api-types.ts, lines
132-148). `SUPPORTED_LANGUAGES = ['sv', 'en']`, `DEFAULT_LANGUAGE = 'sv'`;
an absent argument yields the default with no warning; otherwise the
argument is lower-cased and checked against the supported list. -/
def validateLanguage : Option Str → LangValidation
  | none => ⟨true, str "sv", none⟩
  | some language =>
      let langLower := toLowerStr language
      if langLower = str "sv" ∨ langLower = str "en" then
        ⟨true, langLower, none⟩
      else
        ⟨false, str "sv", some (languageWarningText language)⟩

/-- Embeds the per-dimension preview clamp inside `handlePreviewData`
(src/scripts/update-api-types.ts, lines 1672-1680): if any token is `*`
or starts with `TOP(` or `BOTTOM(`, every `*` is replaced by `TOP(3)` and
the list length is kept; otherwise the list is cut to its first 3
entries. -/
def clampPreviewValues (values : List Str) : List Str :=
  if values.any (fun v =>
      v = str "*" || (str "TOP(").isPrefixOf v || (str "BOTTOM(").isPrefixOf v) then
    values.map (fun v => if v = str "*" then str "TOP(3)" else v)
  else
    values.take 3

/-- Selections: an ordered mapping from dimension code to a list of
value tokens (JavaScript objects preserve insertion order). -/
abbrev Selection := List (Str × List Str)

/-- Embeds the whole preview-clamp loop of `handlePreviewData`
(src/scripts/update-api-types.ts, lines 1669-1681), applied when a
selection is present: each dimension's token list is clamped
independently. -/
def previewClamp (selection : Selection) : Selection :=
  selection.map (fun p => (p.1, clampPreviewValues p.2))

/-- Embeds the pageSize computation of `handleSearchTables`
(src/scripts/update-api-types.ts, lines 696-700) with
`MAX_PAGE_SIZE = 100`. JavaScript `args.pageSize || 20` falls back to 20
when pageSize is absent or 0 (falsy). -/
def effectivePageSize (pageSize : Option Int) : Int :=
  let p : Int := match pageSize with
    | none => 20
    | some n => if n = 0 then 20 else n
  if p > 100 then 100 else p

/-- Category part of a dimension in the upstream JSON-stat shape:
an ordered mapping `index` from value code to position, and an optional
`label` mapping from value code to display name. -/
structure CategoryDef where
  index : List (Str × Nat)
  label : Option (List (Str × Str))
  deriving DecidableEq, Repr

/-- Definition of one dimension: display label plus its category. -/
structure DimDef where
  label : Str
  category : CategoryDef
  deriving DecidableEq, Repr

/-- Table metadata as returned by `apiClient.getTableMetadata`: display
label and the (possibly absent) ordered dimension mapping. -/
structure TableMetadata where
  label : Str
  dimension : Option (List (Str × DimDef))
  deriving DecidableEq, Repr

/-- Statistical data as returned by `apiClient.getTableData`; only the
`dimension` part is consulted when building the effective selection. -/
structure StatData where
  dimension : Option (List (Str × DimDef))
  deriving DecidableEq, Repr

/-- Embeds the effective-selection extraction shared by
`handleGetTableData` (lines 945-952) and `handlePreviewData` (lines
1689-1696): for each dimension of the returned data, the keys of its
`category.index`, in order; an absent `dimension` yields an empty
mapping. -/
def extractEffectiveSelection (data : StatData) : Selection :=
  match data.dimension with
  | none => []
  | some dims => dims.map (fun p => (p.1, p.2.category.index.map Prod.fst))

/-- Query block of a successful data response: the echoed request
selection, the effective selection, and the language fields. -/
structure DataQueryInfo where
  selection : Selection
  effectiveSelection : Selection
  languageUsed : Str
  languageWarning : Option Str
  deriving DecidableEq, Repr

/-- Preview metadata block of a successful preview response. -/
structure PreviewInfo where
  isPreview : Bool
  originalSelection : Option Selection
  previewSelection : Option Selection
  deriving DecidableEq, Repr

/-- Embeds the success path of `handleGetTableData` (src/scripts/
update-api-types.ts, lines 934-973): given the request selection and the
fetched data, builds the query block with `selection || {}` and the
effective selection extracted from the data's dimensions. -/
def getTableDataSuccess (selection : Option Selection) (language : Option Str)
    (data : StatData) : DataQueryInfo :=
  let langValidation := validateLanguage language
  { selection := selection.getD []
  , effectiveSelection := extractEffectiveSelection data
  , languageUsed := langValidation.language
  , languageWarning := langValidation.warning }

/-- Embeds the success path of `handlePreviewData` (src/scripts/
update-api-types.ts, lines 1660-1747): the fetch uses the clamped
selection, the query block echoes the original selection, and the
effective selection again comes from the returned data. -/
def previewDataSuccess (selection : Option Selection) (language : Option Str)
    (data : StatData) : DataQueryInfo × PreviewInfo :=
  let langValidation := validateLanguage language
  let previewSelection := selection.map previewClamp
  ( { selection := selection.getD []
    , effectiveSelection := extractEffectiveSelection data
    , languageUsed := langValidation.language
    , languageWarning := langValidation.warning }
  , { isPreview := true
    , originalSelection := selection
    , previewSelection := previewSelection } )

/-- Region record of the region reference store (regions.js):
`{code, name, type, countyCode}`. -/
structure RegionRec where
  code : Str
  name : Str
  rtype : Str
  countyCode : Option Str
  deriving DecidableEq, Repr

/-- Observable outcome of `handleFindRegionCode`: which match-type tag
the response carries, the reported source, the code of the primary
match, whether the response is the error shape, and how many API
(transport) calls were issued. -/
structure FindRegionOutcome where
  matchType : Option Str
  source : Option Str
  primaryCode : Option Str
  isError : Bool
  apiCalls : Nat
  deriving DecidableEq, Repr

/-- Embeds the filter on a table's region labels used in the
table-specific branch of `handleFindRegionCode` (lines 1390-1397).
`normalizeFS` stands for `normalizeForSearch`, imported from regions.js
(that file is outside the embedded sources, so the normalizer is a
parameter; the claims settled here do not depend on it). -/
def tableRegionMatches (normalizeFS : Str → Str) (query : Str)
    (regionLabels : List (Str × Str)) : List (Str × Str) :=
  let normalizedQuery := normalizeFS query
  regionLabels.filter (fun p =>
    jsIncludes (normalizeFS p.2) normalizedQuery
    || jsIncludes normalizedQuery (normalizeFS p.2)
    || p.1 = query
    || jsIncludes p.1 query)

/-- Embeds `handleFindRegionCode` (src/scripts/update-api-types.ts,
lines 1291-1524). `localMatches` is the result of `searchRegions(query)`
(regions.js, outside the embedded sources, hence a parameter), and
`api` is the outcome of `apiClient.getTableMetadata` for the given table
id. Branches, in source order: local matches with no table id return
immediately with no API call; with a table id the metadata is fetched
(one API call) and the handler falls through table-specific matches,
local fallback/suggestion branches, and finally the no-match error. -/
def handleFindRegionCode (normalizeFS : Str → Str) (query : Str)
    (localMatches : List RegionRec) (tableId : Option Str)
    (api : Except Unit TableMetadata) : FindRegionOutcome :=
  if localMatches ≠ [] ∧ tableId = none then
    { matchType := some (str "exact_matches")
    , source := some (str "local_database")
    , primaryCode := (localMatches.take 10).head?.map (fun r => r.code)
    , isError := false
    , apiCalls := 0 }
  else if tableId.isSome then
    match api with
    | Except.error _ =>
        if localMatches ≠ [] then
          { matchType := some (str "fallback_matches")
          , source := some (str "local_database")
          , primaryCode := (localMatches.take 10).head?.map (fun r => r.code)
          , isError := false
          , apiCalls := 1 }
        else
          { matchType := none, source := none, primaryCode := none
          , isError := true, apiCalls := 1 }
    | Except.ok metadata =>
        match metadata.dimension.bind
            (fun dims => (dims.find? (fun p => p.1 = str "Region")).map Prod.snd) with
        | none =>
            if localMatches ≠ [] then
              { matchType := some (str "local_fallback")
              , source := some (str "local_database")
              , primaryCode := (localMatches.take 10).head?.map (fun r => r.code)
              , isError := false
              , apiCalls := 1 }
            else
              { matchType := none, source := none, primaryCode := none
              , isError := true, apiCalls := 1 }
        | some regionDimension =>
            let regionLabels := regionDimension.category.label.getD []
            let tm := tableRegionMatches normalizeFS query regionLabels
            if tm ≠ [] then
              { matchType := some (str "table_specific_matches")
              , source := none
              , primaryCode := (tm.take 10).head?.map Prod.fst
              , isError := false
              , apiCalls := 1 }
            else if localMatches ≠ [] then
              { matchType := some (str "local_suggestions")
              , source := some (str "local_database")
              , primaryCode := (localMatches.take 5).head?.map (fun r => r.code)
              , isError := false
              , apiCalls := 1 }
            else
              { matchType := none, source := none, primaryCode := none
              , isError := true, apiCalls := 1 }
  else
    { matchType := none, source := none, primaryCode := none
    , isError := true, apiCalls := 0 }

/-- Outcome of `apiClient.validateSelection` (api-client.ts, outside the
embedded sources; used opaquely by the non-empty branch of
`handleTestSelection`). -/
structure ValidationOutcome where
  isValid : Bool
  translatedSelection : Option Selection
  errors : List Str
  suggestions : List Str
  deriving DecidableEq, Repr

/-- Observable outcome of `handleTestSelection`: error shape and type,
the `is_valid` and `selection_provided` fields when present, the
translated selection when present, and how many calls were made to
`apiClient.validateSelection`. -/
structure TestSelectionOutcome where
  isError : Bool
  errorType : Option Str
  isValidField : Option Bool
  selectionProvided : Option Bool
  translatedSelection : Option Selection
  validateCalls : Nat
  deriving DecidableEq, Repr

/-- Embeds the emptiness test of `handleTestSelection` (line 1532):
`!selection || typeof selection !== 'object' ||
Object.keys(selection).length === 0` (the typeof arm is statically true
for the modelled type). -/
def isEmptySelection : Option Selection → Bool
  | none => true
  | some s => s.isEmpty

/-- Embeds `handleTestSelection` (src/scripts/update-api-types.ts, lines
1526-1658). `metadataApi` is the outcome of `apiClient.getTableMetadata`
and `validateApi` that of `apiClient.validateSelection` (api-client.ts,
outside the embedded sources, hence oracles). An empty or absent
selection is answered from metadata alone: `is_valid: true`,
`selection_provided: false`, no translated selection synthesized, and
the validator is never called; a metadata failure there yields the
`table_not_found` error. A non-empty selection goes through the
validator. -/
def handleTestSelection (selection : Option Selection)
    (metadataApi : Except Unit TableMetadata)
    (validateApi : Except Unit ValidationOutcome) : TestSelectionOutcome :=
  if isEmptySelection selection then
    match metadataApi with
    | Except.ok _ =>
        { isError := false, errorType := none
        , isValidField := some true, selectionProvided := some false
        , translatedSelection := none, validateCalls := 0 }
    | Except.error _ =>
        { isError := true, errorType := some (str "table_not_found")
        , isValidField := none, selectionProvided := none
        , translatedSelection := none, validateCalls := 0 }
  else
    match validateApi with
    | Except.ok validation =>
        { isError := false, errorType := none
        , isValidField := some validation.isValid
        , selectionProvided := none
        , translatedSelection := validation.translatedSelection
        , validateCalls := 1 }
    | Except.error _ =>
        { isError := true, errorType := some (str "selection_validation_failed")
        , isValidField := none, selectionProvided := none
        , translatedSelection := none, validateCalls := 1 }

/-- Valid category keys of `handleSearchTables` (lines 709-719). -/
def validCategories : List Str :=
  [str "population", str "labour", str "economy", str "housing",
   str "environment", str "education", str "health"]

/-- Observable outcome of `handleSearchTables`: the page size passed to
`apiClient.searchTables`, whether the invalid-category error shape was
returned, and the language fields attached to the response. -/
structure SearchTablesOutcome where
  apiPageSize : Int
  isError : Bool
  languageUsed : Str
  languageWarning : Option Str
  deriving DecidableEq, Repr

/-- Embeds `handleSearchTables` (src/scripts/update-api-types.ts, lines
691-795) down to the fields the claims observe: language validation,
the pageSize cap (lines 696-700), the API call made with the capped
pageSize, and category validation (an absent or empty category — falsy
in JavaScript — skips it). -/
def handleSearchTables (pageSize : Option Int) (category : Option Str)
    (language : Option Str) : SearchTablesOutcome :=
  let langValidation := validateLanguage language
  let ps := effectivePageSize pageSize
  let categoryInvalid :=
    match category with
    | none => false
    | some c => if c = [] then false else ¬ (toLowerStr c ∈ validCategories)
  { apiPageSize := ps
  , isError := categoryInvalid
  , languageUsed := langValidation.language
  , languageWarning := langValidation.warning }

/-- Claim C3: for every query string, region name and region code, the
fuzzy match predicate returns true if and only if, after normalizing
both query and name (lowercase, map å/ä→a, ö→o, é→e, ü→u, trim), the
normalized names are equal, or the region's code (case-insensitive)
equals the normalized query, or the normalized name contains the
normalized query or vice versa, or the region's code contains the
normalized query as a substring. -/
theorem fuzzyMatchRegion_iff_spec (query name code : Str) :
    fuzzyMatchRegion query name code = true ↔
      (normalizeSwedish name = normalizeSwedish query
       ∨ toLowerStr code = normalizeSwedish query
       ∨ normalizeSwedish query <:+: normalizeSwedish name
       ∨ normalizeSwedish name <:+: normalizeSwedish query
       ∨ normalizeSwedish query <:+: toLowerStr code) := by
  unfold fuzzyMatchRegion
  simp only [← jsIncludes_iff]
  split_ifs with h1 h2 h3 <;> simp_all <;> tauto

/-- Closed instance of the C3 theorem at a concrete query, name and
code, exercising the contains arm of the disjunction. -/
theorem fuzzyMatchRegion_iff_spec_witness :
    fuzzyMatchRegion (str "got") (str "Göteborg") (str "1480") = true ↔
      (normalizeSwedish (str "Göteborg") = normalizeSwedish (str "got")
       ∨ toLowerStr (str "1480") = normalizeSwedish (str "got")
       ∨ normalizeSwedish (str "got") <:+: normalizeSwedish (str "Göteborg")
       ∨ normalizeSwedish (str "Göteborg") <:+: normalizeSwedish (str "got")
       ∨ normalizeSwedish (str "got") <:+: toLowerStr (str "1480")) :=
  fuzzyMatchRegion_iff_spec (str "got") (str "Göteborg") (str "1480")

/-- Claim C4: for every region with name N and code C, querying with N
stripped of its diacritics (å/ä replaced by a, ö by o, é by e, ü by u)
is accepted by the fuzzy match predicate against that region, so the
region appears among the lookup results. -/
theorem fuzzyMatchRegion_strip_accepted (name code : Str) :
    fuzzyMatchRegion (stripDiacritics name) name code = true := by
  unfold fuzzyMatchRegion
  rw [normalizeSwedish_strip]
  simp

theorem validateLanguage_some (l : Str) :
    validateLanguage (some l) =
      (if toLowerStr l = str "sv" ∨ toLowerStr l = str "en" then
        ⟨true, toLowerStr l, none⟩
      else ⟨false, str "sv", some (languageWarningText l)⟩) := rfl

/-- Claim C5: for every language argument (including absent), language
validation yields one of the two supported codes; any present value
whose lowercase form is not a supported code yields the default 'sv'
together with a warning, and a call (here `handleSearchTables` without
category filter) never fails because of the language parameter: it still
returns a non-error response carrying the warning. -/
theorem validateLanguage_total_and_defaulting (lang : Option Str) :
    ((validateLanguage lang).language = str "sv"
      ∨ (validateLanguage lang).language = str "en")
    ∧ (lang = none → validateLanguage lang = ⟨true, str "sv", none⟩)
    ∧ (∀ l, lang = some l → toLowerStr l ≠ str "sv" → toLowerStr l ≠ str "en" →
        (validateLanguage lang).language = str "sv"
        ∧ (validateLanguage lang).warning = some (languageWarningText l))
    ∧ (∀ ps, (handleSearchTables ps none lang).isError = false
        ∧ (handleSearchTables ps none lang).languageWarning
            = (validateLanguage lang).warning) := by
  refine ⟨?_, ?_, ?_, fun ps => ⟨rfl, rfl⟩⟩
  · cases lang with
    | none => exact Or.inl rfl
    | some l =>
        rw [validateLanguage_some]
        by_cases h : toLowerStr l = str "sv" ∨ toLowerStr l = str "en"
        · rw [if_pos h]; simpa using h
        · rw [if_neg h]; exact Or.inl rfl
  · rintro rfl; rfl
  · rintro l rfl hsv hen
    rw [validateLanguage_some, if_neg (by tauto)]
    exact ⟨rfl, rfl⟩

/-- Closed instance of the C5 theorem at the unsupported language
argument "de". -/
theorem validateLanguage_total_and_defaulting_witness :
    ((validateLanguage (some (str "de"))).language = str "sv"
      ∨ (validateLanguage (some (str "de"))).language = str "en")
    ∧ (some (str "de") = none →
        validateLanguage (some (str "de")) = ⟨true, str "sv", none⟩)
    ∧ (∀ l, some (str "de") = some l →
        toLowerStr l ≠ str "sv" → toLowerStr l ≠ str "en" →
        (validateLanguage (some (str "de"))).language = str "sv"
        ∧ (validateLanguage (some (str "de"))).warning
            = some (languageWarningText l))
    ∧ (∀ ps, (handleSearchTables ps none (some (str "de"))).isError = false
        ∧ (handleSearchTables ps none (some (str "de"))).languageWarning
            = (validateLanguage (some (str "de"))).warning) :=
  validateLanguage_total_and_defaulting (some (str "de"))

/-- Claim C10: language validation accepts the two supported codes
case-insensitively: any value whose lowercase form is 'sv' or 'en' is
accepted with that lowercase code, no warning, and the same result as if
the lowercase code had been supplied. -/
theorem validateLanguage_case_insensitive (l : Str)
    (h : toLowerStr l = str "sv" ∨ toLowerStr l = str "en") :
    validateLanguage (some l) = ⟨true, toLowerStr l, none⟩
    ∧ validateLanguage (some l) = validateLanguage (some (toLowerStr l)) := by
  have h2 : toLowerStr (toLowerStr l) = toLowerStr l := by
    cases h with
    | inl hh => rw [hh]; decide
    | inr hh => rw [hh]; decide
  rw [validateLanguage_some, validateLanguage_some, h2, if_pos h, if_pos h]
  exact ⟨rfl, rfl⟩

/-- Closed instance of the C10 theorem at the upper-case argument "SV". -/
theorem validateLanguage_case_insensitive_witness :
    validateLanguage (some (str "SV")) = ⟨true, toLowerStr (str "SV"), none⟩
    ∧ validateLanguage (some (str "SV"))
        = validateLanguage (some (toLowerStr (str "SV"))) :=
  validateLanguage_case_insensitive (str "SV") (by decide)

/-- Claim C1 counterexample: the preview clamp does not bound every
dimension's token list to at most 3 entries. On the selection
`{Tid: ["2021","2022","2023","*"]}` the clamped list has 4 entries
(`*` is replaced by `TOP(3)` but nothing is truncated, because a
special token is present). -/
theorem previewClamp_bound_counterexample :
    ¬ (∀ p ∈ previewClamp [(str "Tid",
        [str "2021", str "2022", str "2023", str "*"])], p.2.length ≤ 3) := by
  decide

/-- Claim C1 as amended: for every selection and every dimension in it,
the preview clamp truncates the dimension's token list to at most 3
entries only when the list contains no `*`, `TOP(`- or `BOTTOM(`-
prefixed token; when such a token is present the list keeps its length,
every `*` is substituted by `TOP(3)`, and `TOP(`/`BOTTOM(`-prefixed
tokens (in particular `TOP(n)`/`BOTTOM(n)` for other n) pass through
untouched. -/
theorem previewClamp_bound_amended (selection : Selection) (k : Str)
    (vs : List Str) (h : (k, vs) ∈ selection) :
    (k, clampPreviewValues vs) ∈ previewClamp selection
    ∧ ((∀ v ∈ vs, v ≠ str "*"
          ∧ (str "TOP(").isPrefixOf v = false
          ∧ (str "BOTTOM(").isPrefixOf v = false) →
        (clampPreviewValues vs).length ≤ 3)
    ∧ ((∃ v ∈ vs, v = str "*"
          ∨ (str "TOP(").isPrefixOf v = true
          ∨ (str "BOTTOM(").isPrefixOf v = true) →
        (clampPreviewValues vs).length = vs.length
        ∧ clampPreviewValues vs
            = vs.map (fun v => if v = str "*" then str "TOP(3)" else v))
    ∧ (∀ v ∈ vs, (str "TOP(").isPrefixOf v = true
          ∨ (str "BOTTOM(").isPrefixOf v = true →
        v ∈ clampPreviewValues vs) := by
  have hmem : (k, clampPreviewValues vs) ∈ previewClamp selection :=
    List.mem_map_of_mem _ h
  refine ⟨hmem, ?_, ?_, ?_⟩
  · intro hnone
    unfold clampPreviewValues
    split_ifs with hany
    · exfalso
      rcases List.any_eq_true.mp hany with ⟨v, hv, hfv⟩
      rcases hnone v hv with ⟨h1, h2, h3⟩
      simp [h2, h3] at hfv
      exact h1 hfv
    · calc (vs.take 3).length = min 3 vs.length := List.length_take 3 vs
        _ ≤ 3 := min_le_left 3 vs.length
  · rintro ⟨v, hv, hsp⟩
    have hany : vs.any (fun v =>
        v = str "*" || (str "TOP(").isPrefixOf v || (str "BOTTOM(").isPrefixOf v)
          = true := by
      refine List.any_eq_true.mpr ⟨v, hv, ?_⟩
      rcases hsp with h1 | h2 | h3
      · simp [h1]
      · simp [h2]
      · simp [h3]
    unfold clampPreviewValues
    rw [if_pos hany]
    exact ⟨List.length_map vs _, rfl⟩
  · intro v hv hsp
    have hvne : v ≠ str "*" := by
      rintro rfl
      rcases hsp with h1 | h1 <;> exact absurd h1 (by decide)
    have hany : vs.any (fun v =>
        v = str "*" || (str "TOP(").isPrefixOf v || (str "BOTTOM(").isPrefixOf v)
          = true := by
      refine List.any_eq_true.mpr ⟨v, hv, ?_⟩
      rcases hsp with h1 | h1 <;> simp [h1]
    unfold clampPreviewValues
    rw [if_pos hany]
    refine List.mem_map.mpr ⟨v, hv, ?_⟩
    rw [if_neg hvne]

/-- Closed instance of the amended C1 theorem at a selection holding one
`TOP(5)` token next to a `*` and three literal codes. -/
theorem previewClamp_bound_amended_witness :
    ((str "Tid", clampPreviewValues [str "TOP(5)", str "*"])
        ∈ previewClamp [(str "Tid", [str "TOP(5)", str "*"])]
    ∧ ((∀ v ∈ ([str "TOP(5)", str "*"] : List Str), v ≠ str "*"
          ∧ (str "TOP(").isPrefixOf v = false
          ∧ (str "BOTTOM(").isPrefixOf v = false) →
        (clampPreviewValues [str "TOP(5)", str "*"]).length ≤ 3)
    ∧ ((∃ v ∈ ([str "TOP(5)", str "*"] : List Str), v = str "*"
          ∨ (str "TOP(").isPrefixOf v = true
          ∨ (str "BOTTOM(").isPrefixOf v = true) →
        (clampPreviewValues [str "TOP(5)", str "*"]).length
            = ([str "TOP(5)", str "*"] : List Str).length
        ∧ clampPreviewValues [str "TOP(5)", str "*"]
            = ([str "TOP(5)", str "*"] : List Str).map
                (fun v => if v = str "*" then str "TOP(3)" else v))
    ∧ (∀ v ∈ ([str "TOP(5)", str "*"] : List Str),
          (str "TOP(").isPrefixOf v = true
          ∨ (str "BOTTOM(").isPrefixOf v = true →
        v ∈ clampPreviewValues [str "TOP(5)", str "*"])) :=
  previewClamp_bound_amended [(str "Tid", [str "TOP(5)", str "*"])]
    (str "Tid") [str "TOP(5)", str "*"] (by decide)

/-- Claim C9: for every selection and every dimension in it, the preview
clamp never increases the number of tokens in that dimension's list, and
every bare `*` token in the input is converted to `TOP(3)` in the
output (no `*` survives, and when one is present the output is exactly
the input with each `*` replaced by `TOP(3)`). -/
theorem previewClamp_no_increase_star_converted (selection : Selection) (k : Str)
    (vs : List Str) (h : (k, vs) ∈ selection) :
    (k, clampPreviewValues vs) ∈ previewClamp selection
    ∧ (clampPreviewValues vs).length ≤ vs.length
    ∧ str "*" ∉ clampPreviewValues vs
    ∧ (str "*" ∈ vs →
        clampPreviewValues vs
          = vs.map (fun v => if v = str "*" then str "TOP(3)" else v)) := by
  have hmem : (k, clampPreviewValues vs) ∈ previewClamp selection :=
    List.mem_map_of_mem _ h
  have hstar : str "*" ∈ vs →
      vs.any (fun v =>
        v = str "*" || (str "TOP(").isPrefixOf v || (str "BOTTOM(").isPrefixOf v)
          = true :=
    fun hs => List.any_eq_true.mpr ⟨str "*", hs, by simp⟩
  refine ⟨hmem, ?_, ?_, ?_⟩
  · unfold clampPreviewValues
    split_ifs
    · exact le_of_eq (List.length_map vs _)
    · calc (vs.take 3).length = min 3 vs.length := List.length_take 3 vs
        _ ≤ vs.length := min_le_right 3 vs.length
  · unfold clampPreviewValues
    split_ifs with hany
    · intro hc
      rcases List.mem_map.mp hc with ⟨v, hv, he⟩
      by_cases hs : v = str "*"
      · rw [if_pos hs] at he
        exact absurd he (by decide)
      · rw [if_neg hs] at he
        exact hs he
    · intro hc
      exact hany (hstar (List.take_subset 3 vs hc))
  · intro hs
    unfold clampPreviewValues
    rw [if_pos (hstar hs)]

/-- Closed instance of the C9 theorem at the selection
`{Region: ["*","0180"]}`. -/
theorem previewClamp_no_increase_star_converted_witness :
    ((str "Region", clampPreviewValues [str "*", str "0180"])
        ∈ previewClamp [(str "Region", [str "*", str "0180"])]
    ∧ (clampPreviewValues [str "*", str "0180"]).length
        ≤ ([str "*", str "0180"] : List Str).length
    ∧ str "*" ∉ clampPreviewValues [str "*", str "0180"]
    ∧ (str "*" ∈ ([str "*", str "0180"] : List Str) →
        clampPreviewValues [str "*", str "0180"]
          = ([str "*", str "0180"] : List Str).map
              (fun v => if v = str "*" then str "TOP(3)" else v))) :=
  previewClamp_no_increase_star_converted
    [(str "Region", [str "*", str "0180"])] (str "Region")
    [str "*", str "0180"] (by decide)

/-- Claim C8: for every searchTables call, the page size actually used
(the one passed to the upstream search) is at most 100; a requested
pageSize greater than 100 is replaced by 100, and an absent pageSize
defaults to 20. -/
theorem searchTables_pageSize_capped (ps : Option Int) (cat : Option Str)
    (lang : Option Str) :
    (handleSearchTables ps cat lang).apiPageSize ≤ 100
    ∧ (∀ n, ps = some n → n > 100 →
        (handleSearchTables ps cat lang).apiPageSize = 100)
    ∧ (ps = none → (handleSearchTables ps cat lang).apiPageSize = 20) := by
  have hps : (handleSearchTables ps cat lang).apiPageSize = effectivePageSize ps :=
    rfl
  refine ⟨?_, ?_, ?_⟩
  · rw [hps]
    unfold effectivePageSize
    cases ps with
    | none => decide
    | some n => dsimp only; split_ifs <;> omega
  · rintro n rfl hn
    rw [hps]
    unfold effectivePageSize
    dsimp only
    split_ifs <;> omega
  · rintro rfl
    rw [hps]
    decide

/-- Closed instance of the C8 theorem at a requested pageSize of 250. -/
theorem searchTables_pageSize_capped_witness :
    (handleSearchTables (some 250) none none).apiPageSize ≤ 100
    ∧ (∀ n, (some 250 : Option Int) = some n → n > 100 →
        (handleSearchTables (some 250) none none).apiPageSize = 100)
    ∧ ((some 250 : Option Int) = none →
        (handleSearchTables (some 250) none none).apiPageSize = 20) :=
  searchTables_pageSize_capped (some 250) none none

/-- Claim C6: for every successful data fetch, the reported effective
selection maps each dimension of the response to exactly the codes
appearing in that dimension's index, independent of what was requested
(the same holds for the preview handler). -/
theorem effectiveSelection_from_index (sel sel2 : Option Selection)
    (lang : Option Str) (data : StatData) (dims : List (Str × DimDef))
    (h : data.dimension = some dims) :
    (getTableDataSuccess sel lang data).effectiveSelection
        = dims.map (fun p => (p.1, p.2.category.index.map Prod.fst))
    ∧ (previewDataSuccess sel lang data).1.effectiveSelection
        = dims.map (fun p => (p.1, p.2.category.index.map Prod.fst))
    ∧ (getTableDataSuccess sel lang data).effectiveSelection
        = (getTableDataSuccess sel2 lang data).effectiveSelection
    ∧ (previewDataSuccess sel lang data).1.effectiveSelection
        = (previewDataSuccess sel2 lang data).1.effectiveSelection := by
  have he : extractEffectiveSelection data
      = dims.map (fun p => (p.1, p.2.category.index.map Prod.fst)) := by
    unfold extractEffectiveSelection
    rw [h]
  exact ⟨he, he, rfl, rfl⟩

/-- Sample dimension list for closed instances: one `Tid` dimension
whose index holds the codes 2023 and 2024. -/
def sampleDims : List (Str × DimDef) :=
  [(str "Tid", ⟨str "year", ⟨[(str "2023", 0), (str "2024", 1)], none⟩⟩)]

/-- Sample statistical response built from `sampleDims`. -/
def sampleData : StatData := ⟨some sampleDims⟩

/-- Closed instance of the C6 theorem: a response with one `Tid`
dimension whose index holds the codes 2023 and 2024, requested once with
`{Tid: ["TOP(5)"]}` and once with an empty selection. -/
theorem effectiveSelection_from_index_witness :
    (getTableDataSuccess (some [(str "Tid", [str "TOP(5)"])]) none
        sampleData).effectiveSelection
        = sampleDims.map (fun p => (p.1, p.2.category.index.map Prod.fst))
    ∧ (previewDataSuccess (some [(str "Tid", [str "TOP(5)"])]) none
        sampleData).1.effectiveSelection
        = sampleDims.map (fun p => (p.1, p.2.category.index.map Prod.fst))
    ∧ (getTableDataSuccess (some [(str "Tid", [str "TOP(5)"])]) none
        sampleData).effectiveSelection
        = (getTableDataSuccess (some []) none sampleData).effectiveSelection
    ∧ (previewDataSuccess (some [(str "Tid", [str "TOP(5)"])]) none
        sampleData).1.effectiveSelection
        = (previewDataSuccess (some []) none sampleData).1.effectiveSelection :=
  effectiveSelection_from_index (some [(str "Tid", [str "TOP(5)"])]) (some [])
    none sampleData sampleDims rfl

theorem handleFindRegionCode_none_apiCalls (nf : Str → Str) (query : Str)
    (lm : List RegionRec) (api : Except Unit TableMetadata) :
    (handleFindRegionCode nf query lm none api).apiCalls = 0 := by
  unfold handleFindRegionCode
  by_cases hlm : lm ≠ []
  · rw [if_pos ⟨hlm, rfl⟩]
  · rw [if_neg (fun hc => hlm hc.1), if_neg (by decide : ¬ (none : Option Str).isSome = true)]

/-- Claim C7: whenever the local region database yields at least one
match and no table id is supplied, `handleFindRegionCode` answers from
the local database (source `local_database`, primary match the first
local match) with zero API calls; and any execution that touches the
transport has a table id supplied. -/
theorem findRegionCode_local_first (nf : Str → Str) (query : Str)
    (lm : List RegionRec) (api : Except Unit TableMetadata) :
    (lm ≠ [] →
      (handleFindRegionCode nf query lm none api).source
          = some (str "local_database")
      ∧ (handleFindRegionCode nf query lm none api).primaryCode
          = lm.head?.map (fun r => r.code)
      ∧ (handleFindRegionCode nf query lm none api).apiCalls = 0)
    ∧ (∀ tid, (handleFindRegionCode nf query lm tid api).apiCalls ≠ 0 →
        tid.isSome = true) := by
  constructor
  · intro hlm
    unfold handleFindRegionCode
    rw [if_pos ⟨hlm, rfl⟩]
    refine ⟨rfl, ?_, rfl⟩
    cases lm with
    | nil => exact absurd rfl hlm
    | cons r t => rfl
  · intro tid htid
    cases tid with
    | some t => rfl
    | none => exact absurd (handleFindRegionCode_none_apiCalls nf query lm api) htid

/-- Closed instance of the C7 theorem with one local match for
Göteborg and an unused API oracle. -/
theorem findRegionCode_local_first_witness :
    ((([⟨str "1480", str "Göteborg", str "municipality", some (str "14")⟩]
        : List RegionRec) ≠ [] →
      (handleFindRegionCode id (str "Göteborg")
          [⟨str "1480", str "Göteborg", str "municipality", some (str "14")⟩]
          none (Except.error ())).source = some (str "local_database")
      ∧ (handleFindRegionCode id (str "Göteborg")
          [⟨str "1480", str "Göteborg", str "municipality", some (str "14")⟩]
          none (Except.error ())).primaryCode
          = ([⟨str "1480", str "Göteborg", str "municipality", some (str "14")⟩]
              : List RegionRec).head?.map (fun r => r.code)
      ∧ (handleFindRegionCode id (str "Göteborg")
          [⟨str "1480", str "Göteborg", str "municipality", some (str "14")⟩]
          none (Except.error ())).apiCalls = 0)
    ∧ (∀ tid, (handleFindRegionCode id (str "Göteborg")
          [⟨str "1480", str "Göteborg", str "municipality", some (str "14")⟩]
          tid (Except.error ())).apiCalls ≠ 0 → tid.isSome = true)) :=
  findRegionCode_local_first id (str "Göteborg")
    [⟨str "1480", str "Göteborg", str "municipality", some (str "14")⟩]
    (Except.error ())

/-- Claim C2: for every valid table id (one whose metadata fetch
succeeds), testing an empty or absent selection succeeds with
`is_valid: true` and `selection_provided: false`, produces no error of
any kind (in particular no validation error), calls the selection
validator zero times, and synthesizes no translated selection — upstream
defaults apply. -/
theorem testSelection_empty_ok (sel : Option Selection) (md : TableMetadata)
    (vapi : Except Unit ValidationOutcome) (h : isEmptySelection sel = true) :
    handleTestSelection sel (Except.ok md) vapi
      = { isError := false, errorType := none, isValidField := some true
        , selectionProvided := some false, translatedSelection := none
        , validateCalls := 0 } := by
  unfold handleTestSelection
  rw [if_pos h]

/-- Closed instance of the C2 theorem at an absent selection and a
one-dimension table. -/
theorem testSelection_empty_ok_witness :
    handleTestSelection none
        (Except.ok ⟨str "population", some [(str "Tid",
          ⟨str "year", ⟨[(str "2024", 0)], none⟩⟩)]⟩)
        (Except.error ())
      = { isError := false, errorType := none, isValidField := some true
        , selectionProvided := some false, translatedSelection := none
        , validateCalls := 0 } :=
  testSelection_empty_ok none
    ⟨str "population", some [(str "Tid", ⟨str "year", ⟨[(str "2024", 0)], none⟩⟩)]⟩
    (Except.error ()) (by decide)

example : jsIncludes (str "goteborg") (str "got") = true := by decide
example : jsIncludes (str "got") (str "goteborg") = false := by decide
example : normalizeSwedish (str " Göteborg ") = str "goteborg" := by decide
example : fuzzyMatchRegion (str "Goteborg") (str "Göteborg") (str "1480") = true := by
  decide
example : fuzzyMatchRegion (str "xyz") (str "Göteborg") (str "1480") = false := by
  decide
